import Mathlib

/-!
Shallow embedding of the algorithmic core of the `house_search` repository:
the price-slider convergence engine (`src/engine/search_engine.py`,
`_set_price_slider_value`), the travel-time cache / provider
(`src/utils/distance.py`, `DistanceCalculator`), the property-type /
bedroom / bathroom filter steps of the search sequencer, and the
distance-enrichment skip logic (`src/enrichment/distance_enricher.py`).
-/

namespace HouseSearch

/-! ## Price slider convergence engine

`_set_price_slider_value` drives a slider handle through keyboard commands.
The slider itself is an external UI control: we model it as an arbitrary
state machine with state type `σ`, a read function (the `aria-valuenow`
attribute read) and a step function (the effect of one key press).  An
arbitrary read sequence—including one that never changes—is a special case
(`σ := Nat`, `stepFn s _ := s + 1`). -/

inductive SliderCmd : Type where
  | endKey | homeKey | pageDown | arrowLeft | pageUp | arrowRight
  deriving DecidableEq, Repr

/-- `max_attempts = 200` in `_set_price_slider_value`. -/
def maxAttempts : Nat := 200

/-- The coarse/fine threshold: `1000000` currency units. -/
def largeStepThreshold : Int := 1000000

/-- `tolerance = 50000` in `_set_price_slider_value`. -/
def sliderTolerance : Nat := 50000

/-- The "max" bound loop of `_set_price_slider_value`: while the attempt
budget lasts, read the current value, break if it is `≤ target`, otherwise
press `PageDown` when more than `largeStepThreshold` above target and
`ArrowLeft` otherwise.  Returns the list of (value read, command issued)
pairs and the final slider state. -/
def maxRun {σ : Type} (readFn : σ → Int) (stepFn : σ → SliderCmd → σ)
    (target : Int) : σ → Nat → List (Int × SliderCmd) × σ
  | s, 0 => ([], s)
  | s, budget + 1 =>
    let v := readFn s
    if v ≤ target then ([], s)
    else
      let c := if largeStepThreshold < v - target then SliderCmd.pageDown
               else SliderCmd.arrowLeft
      let r := maxRun readFn stepFn target (stepFn s c) budget
      ((v, c) :: r.1, r.2)

/-- The "min" bound loop: break once the value is `≥ target`, press `PageUp`
when more than `largeStepThreshold` below target, `ArrowRight` otherwise. -/
def minRun {σ : Type} (readFn : σ → Int) (stepFn : σ → SliderCmd → σ)
    (target : Int) : σ → Nat → List (Int × SliderCmd) × σ
  | s, 0 => ([], s)
  | s, budget + 1 =>
    let v := readFn s
    if target ≤ v then ([], s)
    else
      let c := if largeStepThreshold < target - v then SliderCmd.pageUp
               else SliderCmd.arrowRight
      let r := minRun readFn stepFn target (stepFn s c) budget
      ((v, c) :: r.1, r.2)

inductive HandleType : Type where
  | min | max
  deriving DecidableEq, Repr

/-- Outcome of `_set_price_slider_value`: the loop trace (each read with the
command issued in that iteration), the slider state after the loop, the final
read (`final_value`), and the tolerance comparison logged at the end. -/
structure SliderOutcome (σ : Type) where
  trace : List (Int × SliderCmd)
  finalState : σ
  finalValue : Int
  withinTolerance : Bool

/-- `_set_price_slider_value`: jump to the extreme for the bound (`End` for
the max handle, `Home` for the min handle), run the convergence loop with a
budget of `maxAttempts`, then read the final value and compare it to the
target with tolerance `sliderTolerance`. -/
def setPriceSliderValue {σ : Type} (readFn : σ → Int)
    (stepFn : σ → SliderCmd → σ) (target : Int) (handleType : HandleType)
    (s0 : σ) : SliderOutcome σ :=
  match handleType with
  | .max =>
    let s1 := stepFn s0 SliderCmd.endKey
    let r := maxRun readFn stepFn target s1 maxAttempts
    let fv := readFn r.2
    ⟨r.1, r.2, fv, decide ((fv - target).natAbs ≤ sliderTolerance)⟩
  | .min =>
    let s1 := stepFn s0 SliderCmd.homeKey
    let r := minRun readFn stepFn target s1 maxAttempts
    let fv := readFn r.2
    ⟨r.1, r.2, fv, decide ((fv - target).natAbs ≤ sliderTolerance)⟩

/-- A concrete deterministic slider for the documented scenario: value range
`[0, 13000000]`, `End`/`Home` jump to the extremes, a page step moves by
1,000,000 and an arrow step by 50,000 (clamped to the range). -/
def scenarioStep (v : Int) : SliderCmd → Int
  | SliderCmd.endKey => 13000000
  | SliderCmd.homeKey => 0
  | SliderCmd.pageDown => v - 1000000
  | SliderCmd.arrowLeft => v - 50000
  | SliderCmd.pageUp => min (v + 1000000) 13000000
  | SliderCmd.arrowRight => min (v + 50000) 13000000

/-! ### Loop lemmas -/

theorem maxRun_length {σ : Type} (readFn : σ → Int) (stepFn : σ → SliderCmd → σ)
    (target : Int) : ∀ (b : Nat) (s : σ),
    (maxRun readFn stepFn target s b).1.length ≤ b := by
  intro b
  induction b with
  | zero => intro s; simp [maxRun]
  | succ n ih =>
    intro s
    simp only [maxRun]
    split
    · simp
    · simpa using ih _

theorem minRun_length {σ : Type} (readFn : σ → Int) (stepFn : σ → SliderCmd → σ)
    (target : Int) : ∀ (b : Nat) (s : σ),
    (minRun readFn stepFn target s b).1.length ≤ b := by
  intro b
  induction b with
  | zero => intro s; simp [minRun]
  | succ n ih =>
    intro s
    simp only [minRun]
    split
    · simp
    · simpa using ih _

theorem maxRun_trace_mem {σ : Type} (readFn : σ → Int) (stepFn : σ → SliderCmd → σ)
    (target : Int) : ∀ (b : Nat) (s : σ),
    ∀ vc ∈ (maxRun readFn stepFn target s b).1,
      target < vc.1 ∧
      (vc.2 = SliderCmd.pageDown ↔ largeStepThreshold < vc.1 - target) ∧
      (vc.2 = SliderCmd.arrowLeft ↔ ¬ largeStepThreshold < vc.1 - target) := by
  intro b
  induction b with
  | zero => intro s vc h; simp [maxRun] at h
  | succ n ih =>
    intro s vc h
    by_cases hc : readFn s ≤ target
    · simp [maxRun, hc] at h
    · simp only [maxRun, if_neg hc] at h
      rcases List.mem_cons.mp h with h | h
      · subst h
        by_cases hb : largeStepThreshold < readFn s - target
        · refine ⟨by omega, ?_, ?_⟩ <;> simp [hb]
        · refine ⟨by omega, ?_, ?_⟩ <;> simp [hb]
      · exact ih _ vc h

theorem maxRun_final_le {σ : Type} (readFn : σ → Int) (stepFn : σ → SliderCmd → σ)
    (target : Int) : ∀ (b : Nat) (s : σ),
    (maxRun readFn stepFn target s b).1.length < b →
    readFn (maxRun readFn stepFn target s b).2 ≤ target := by
  intro b
  induction b with
  | zero => intro s h; simp at h
  | succ n ih =>
    intro s h
    by_cases hc : readFn s ≤ target
    · simp only [maxRun, if_pos hc]
      exact hc
    · simp only [maxRun, if_neg hc] at h ⊢
      simp only [List.length_cons] at h
      exact ih _ (by omega)

theorem maxRun_reads_antitone {σ : Type} (readFn : σ → Int)
    (stepFn : σ → SliderCmd → σ) (target : Int)
    (hyp : ∀ s : σ, readFn (stepFn s SliderCmd.pageDown) ≤ readFn s ∧
      readFn (stepFn s SliderCmd.arrowLeft) ≤ readFn s) :
    ∀ (b : Nat) (s : σ),
    List.Chain' (fun a b => b ≤ a)
      ((maxRun readFn stepFn target s b).1.map Prod.fst ++
        [readFn (maxRun readFn stepFn target s b).2]) ∧
    ((maxRun readFn stepFn target s b).1.map Prod.fst ++
        [readFn (maxRun readFn stepFn target s b).2]).head? = some (readFn s) := by
  intro b
  induction b with
  | zero => intro s; simp [maxRun]
  | succ n ih =>
    intro s
    simp only [maxRun]
    split
    · simp
    · constructor
      · rw [List.map_cons, List.cons_append, List.chain'_cons']
        refine ⟨?_, (ih _).1⟩
        intro h hh
        rw [(ih _).2] at hh
        have hstep : readFn (stepFn s (if largeStepThreshold < readFn s - target
            then SliderCmd.pageDown else SliderCmd.arrowLeft)) ≤ readFn s := by
          split
          · exact (hyp s).1
          · exact (hyp s).2
        simp at hh
        omega
      · simp

theorem minRun_trace_mem {σ : Type} (readFn : σ → Int) (stepFn : σ → SliderCmd → σ)
    (target : Int) : ∀ (b : Nat) (s : σ),
    ∀ vc ∈ (minRun readFn stepFn target s b).1,
      vc.1 < target ∧
      (vc.2 = SliderCmd.pageUp ↔ largeStepThreshold < target - vc.1) ∧
      (vc.2 = SliderCmd.arrowRight ↔ ¬ largeStepThreshold < target - vc.1) := by
  intro b
  induction b with
  | zero => intro s vc h; simp [minRun] at h
  | succ n ih =>
    intro s vc h
    by_cases hc : target ≤ readFn s
    · simp [minRun, hc] at h
    · simp only [minRun, if_neg hc] at h
      rcases List.mem_cons.mp h with h | h
      · subst h
        by_cases hb : largeStepThreshold < target - readFn s
        · refine ⟨by omega, ?_, ?_⟩ <;> simp [hb]
        · refine ⟨by omega, ?_, ?_⟩ <;> simp [hb]
      · exact ih _ vc h

theorem minRun_final_ge {σ : Type} (readFn : σ → Int) (stepFn : σ → SliderCmd → σ)
    (target : Int) : ∀ (b : Nat) (s : σ),
    (minRun readFn stepFn target s b).1.length < b →
    target ≤ readFn (minRun readFn stepFn target s b).2 := by
  intro b
  induction b with
  | zero => intro s h; simp at h
  | succ n ih =>
    intro s h
    by_cases hc : target ≤ readFn s
    · simp only [minRun, if_pos hc]
      exact hc
    · simp only [minRun, if_neg hc] at h ⊢
      simp only [List.length_cons] at h
      exact ih _ (by omega)

/-! ### Claim theorems for the convergence engine -/

/-- **C1.** For every target and every slider behavior (any state type, read
function and step response — including a control whose reads never change),
each per-bound convergence loop of `_set_price_slider_value` issues at most
`maxAttempts = 200` loop iterations (it cannot loop forever), and after the
loop the final value is the read of the final state and is compared to the
target within the `50000` tolerance. -/
theorem set_price_slider_value_terminates {σ : Type} (readFn : σ → Int)
    (stepFn : σ → SliderCmd → σ) (target : Int) (handleType : HandleType)
    (s0 : σ) :
    (setPriceSliderValue readFn stepFn target handleType s0).trace.length ≤ 200 ∧
    (setPriceSliderValue readFn stepFn target handleType s0).finalValue =
      readFn (setPriceSliderValue readFn stepFn target handleType s0).finalState ∧
    ((setPriceSliderValue readFn stepFn target handleType s0).withinTolerance = true ↔
      ((setPriceSliderValue readFn stepFn target handleType s0).finalValue
        - target).natAbs ≤ 50000) := by
  cases handleType
  · exact ⟨minRun_length readFn stepFn target maxAttempts _, rfl,
      by simp [setPriceSliderValue, sliderTolerance]⟩
  · exact ⟨maxRun_length readFn stepFn target maxAttempts _, rfl,
      by simp [setPriceSliderValue, sliderTolerance]⟩

/-- **C2.** Per-iteration behavior of the convergence loop, for every slider
behavior: the loop body only runs on reads strictly on the wrong side of the
target (it breaks once the value has reached or passed the target in the
direction of travel — `≤ target` for the max bound, `≥ target` for the min
bound, so early exit implies the final value passed the target); it issues a
coarse page step exactly when the remaining distance exceeds 1,000,000 and a
fine arrow step otherwise.  Concretely, for a max-bound slider with
`max_value = 13,000,000` starting at 13,000,000 and target 1,000,000 (page
step 1,000,000, fine step 50,000), it issues 11 coarse `PageDown` steps while
the distance exceeds 1,000,000, then 20 fine `ArrowLeft` steps, and
terminates with final value 1,000,000, within the ±50,000 tolerance. -/
theorem set_price_slider_value_step_selection :
    (∀ (σ : Type) (readFn : σ → Int) (stepFn : σ → SliderCmd → σ)
        (target : Int) (s0 : σ),
      (∀ vc ∈ (setPriceSliderValue readFn stepFn target HandleType.max s0).trace,
        target < vc.1 ∧
        (vc.2 = SliderCmd.pageDown ↔ 1000000 < vc.1 - target) ∧
        (vc.2 = SliderCmd.arrowLeft ↔ ¬ 1000000 < vc.1 - target)) ∧
      ((setPriceSliderValue readFn stepFn target HandleType.max s0).trace.length < 200 →
        (setPriceSliderValue readFn stepFn target HandleType.max s0).finalValue
          ≤ target) ∧
      (∀ vc ∈ (setPriceSliderValue readFn stepFn target HandleType.min s0).trace,
        vc.1 < target ∧
        (vc.2 = SliderCmd.pageUp ↔ 1000000 < target - vc.1) ∧
        (vc.2 = SliderCmd.arrowRight ↔ ¬ 1000000 < target - vc.1)) ∧
      ((setPriceSliderValue readFn stepFn target HandleType.min s0).trace.length < 200 →
        target ≤
          (setPriceSliderValue readFn stepFn target HandleType.min s0).finalValue)) ∧
    ((setPriceSliderValue id scenarioStep 1000000 HandleType.max 13000000).trace.map
        Prod.snd =
      List.replicate 11 SliderCmd.pageDown ++ List.replicate 20 SliderCmd.arrowLeft ∧
    (setPriceSliderValue id scenarioStep 1000000 HandleType.max 13000000).finalValue =
      1000000 ∧
    (setPriceSliderValue id scenarioStep 1000000 HandleType.max 13000000).withinTolerance
      = true) := by
  refine ⟨fun σ readFn stepFn target s0 => ⟨?_, ?_, ?_, ?_⟩, by decide, by decide, by decide⟩
  · exact maxRun_trace_mem readFn stepFn target maxAttempts _
  · exact maxRun_final_le readFn stepFn target maxAttempts _
  · exact minRun_trace_mem readFn stepFn target maxAttempts _
  · exact minRun_final_ge readFn stepFn target maxAttempts _

/-- Witness for C2: the first scenario iteration reads 13,000,000 and issues a
coarse `PageDown` (distance 12,000,000 > 1,000,000), as the theorem's general
part predicts at that concrete trace element. -/
theorem set_price_slider_value_step_selection_witness :
    (1000000 : Int) < 13000000 ∧
    (SliderCmd.pageDown = SliderCmd.pageDown ↔ (1000000 : Int) < 13000000 - 1000000) :=
  have h := (set_price_slider_value_step_selection.1 Int id scenarioStep
      1000000 13000000).1 (13000000, SliderCmd.pageDown) (by decide)
  ⟨h.1, h.2.1⟩

/-- **C3.** During the max bound's decreasing convergence loop — which only
issues `PageDown` or `ArrowLeft` commands — on any control where those two
commands never increase the read value, the sequence of reads (each loop
read followed by the final read) is nonincreasing: each successive read is
`≤` the previous one. -/
theorem max_loop_reads_nonincreasing {σ : Type} (readFn : σ → Int)
    (stepFn : σ → SliderCmd → σ) (target : Int) (s0 : σ)
    (hyp : ∀ s : σ, readFn (stepFn s SliderCmd.pageDown) ≤ readFn s ∧
      readFn (stepFn s SliderCmd.arrowLeft) ≤ readFn s) :
    List.Chain' (fun a b => b ≤ a)
      ((setPriceSliderValue readFn stepFn target HandleType.max s0).trace.map
          Prod.fst ++
        [(setPriceSliderValue readFn stepFn target HandleType.max s0).finalValue]) :=
  (maxRun_reads_antitone readFn stepFn target hyp maxAttempts
    (stepFn s0 SliderCmd.endKey)).1

/-- Witness for C3: the scenario slider's `PageDown`/`ArrowLeft` never
increase the value, and its max-bound trace of reads is nonincreasing. -/
theorem max_loop_reads_nonincreasing_witness :
    (∀ s : Int, id (scenarioStep s SliderCmd.pageDown) ≤ id s ∧
      id (scenarioStep s SliderCmd.arrowLeft) ≤ id s) ∧
    List.Chain' (fun a b => b ≤ a)
      ((setPriceSliderValue id scenarioStep 1000000 HandleType.max 13000000).trace.map
          Prod.fst ++
        [(setPriceSliderValue id scenarioStep 1000000 HandleType.max
            13000000).finalValue]) :=
  ⟨fun s => ⟨by simp [scenarioStep], by simp [scenarioStep]⟩,
    max_loop_reads_nonincreasing id scenarioStep 1000000 13000000
      (fun s => ⟨by simp [scenarioStep], by simp [scenarioStep]⟩)⟩

/-! ## Travel-time provider and cache (`src/utils/distance.py`)

`DistanceCalculator` keeps an in-memory dict `self.cache` and mirrors it to
disk in `_save_cache` on every write.  We model the in-memory dict as an
association list with Python-dict semantics (assignment overwrites in place,
otherwise appends) and the on-disk mapping as a second field that
`_save_cache` sets to the current cache.  The external Distance Matrix API is
modelled by the outcome of the single call `get_travel_time` makes: either
a response carrying the top-level status, the element status and the
duration in seconds, or a raised exception. -/

inductive TravelMode : Type where
  | transit | driving
  deriving DecidableEq, Repr

/-- `TravelMode.value` in `config/locations.py`. -/
def TravelMode.value : TravelMode → String
  | .transit => "transit"
  | .driving => "driving"

/-- The value stored per cache key: `{'duration_mins': ..., 'mode': ...}`. -/
structure DistanceData where
  duration_mins : Nat
  mode : String
  deriving DecidableEq, Repr

abbrev Cache := List (String × DistanceData)

/-- First-match association-list lookup (`cache_key in self.cache` /
`self.cache[cache_key]`). -/
def cacheLookup (c : Cache) (k : String) : Option DistanceData :=
  match c with
  | [] => none
  | (k', v) :: rest => if k' = k then some v else cacheLookup rest k

/-- Python-dict assignment `self.cache[key] = value`: overwrite the key's
binding in place when the key is present, append otherwise. -/
def dictSet : Cache → String → DistanceData → Cache
  | [], k, v => [(k, v)]
  | (k', w) :: rest, k, v =>
    if k' = k then (k, v) :: rest else (k', w) :: dictSet rest k v

/-- The calculator's mutable state: the in-memory cache dict and the on-disk
mapping written by `_save_cache`. -/
structure CalcState where
  cache : Cache
  disk : Cache
  deriving DecidableEq, Repr

/-- Python's `str.strip()`: drop whitespace from both ends. -/
def pyStrip (l : List Char) : List Char :=
  ((l.dropWhile Char.isWhitespace).reverse.dropWhile Char.isWhitespace).reverse

/-- Python's `s.lower().strip()` as used by `_get_cache_key`. -/
def pyNormalize (s : String) : String :=
  ⟨pyStrip (s.data.map Char.toLower)⟩

/-- `_get_cache_key`: `f"{mode}|{origin.lower().strip()}|{destination.lower().strip()}"`. -/
def getCacheKey (origin destination mode : String) : String :=
  mode ++ "|" ++ pyNormalize origin ++ "|" ++ pyNormalize destination

/-- Outcome of the one `distance_matrix` call `get_travel_time` makes:
a response with top-level status, element status and `duration.value`
seconds, or any raised exception (network, parsing, …). -/
inductive ApiOutcome : Type where
  | response (topStatus elemStatus : String) (durationSecs : Nat)
  | raises
  deriving DecidableEq, Repr

/-- Python's `round(secs / 60, 0)` on a nonnegative integer number of
seconds: banker's rounding (round half to even) of `secs / 60`. -/
def pyRoundDiv60 (secs : Nat) : Nat :=
  let q := secs / 60
  let r := secs % 60
  if r < 30 then q
  else if 30 < r then q + 1
  else if q % 2 = 0 then q else q + 1

/-- `DistanceCalculator.get_travel_time`: compute the cache key; on a cache
hit (when `use_cache`) return the cached entry; otherwise call the API.  On
a fully successful response (`result['status'] == 'OK'` and
`element['status'] == 'OK'`) build the distance data, write it into the
cache, persist the whole cache to disk, and return it.  On a non-OK
top-level or element status, or on any raised exception, return `none` with
the state untouched. -/
def getTravelTime (st : CalcState) (origin destination : String)
    (mode : TravelMode) (useCache : Bool) (api : ApiOutcome) :
    Option DistanceData × CalcState :=
  let modeStr := mode.value
  let key := getCacheKey origin destination modeStr
  if useCache = true ∧ (cacheLookup st.cache key).isSome = true then
    (cacheLookup st.cache key, st)
  else
    match api with
    | .raises => (none, st)
    | .response top elem secs =>
      if top = "OK" then
        if elem = "OK" then
          let data : DistanceData := ⟨pyRoundDiv60 secs, modeStr⟩
          let cache' := dictSet st.cache key data
          (some data, ⟨cache', cache'⟩)
        else (none, st)
      else (none, st)

/-- The API call failed: non-OK top-level status, non-OK element status, or
a raised exception. -/
def apiFails : ApiOutcome → Prop
  | .raises => True
  | .response top elem _ => top ≠ "OK" ∨ elem ≠ "OK"

instance : DecidablePred apiFails := fun api => by
  cases api <;> simp [apiFails] <;> infer_instance

/-! ### Cache lemmas -/

/-- Python-dict semantics of `dictSet`: looking up `j` after
`self.cache[k] = v` gives `v` when `j = k` and the old binding otherwise. -/
theorem cacheLookup_dictSet (c : Cache) (k j : String) (v : DistanceData) :
    cacheLookup (dictSet c k v) j =
      if k = j then some v else cacheLookup c j := by
  induction c with
  | nil =>
    simp only [dictSet, cacheLookup]
  | cons hd tl ih =>
    obtain ⟨a, w⟩ := hd
    by_cases ha : a = k
    · subst ha
      simp only [dictSet, if_pos rfl, cacheLookup]
      by_cases hj : a = j
      · simp [hj]
      · simp [hj]
    · simp only [dictSet, if_neg ha, cacheLookup]
      by_cases hj : a = j
      · have hkj : ¬ k = j := fun e => ha (hj.trans e.symm)
        simp [hj, hkj]
      · simp [hj, ih]

/-! ### Claim theorems for the travel-time provider -/

/-- **C4.** For every origin, destination and mode, whenever the API call is
actually made (no cache hit is returned first) and it fails — non-OK
top-level status, non-OK element status, or a raised exception —
`get_travel_time` returns `none` and leaves the calculator state (the cache
mapping and the disk mirror) completely unchanged. -/
theorem get_travel_time_failure_absent (st : CalcState)
    (origin destination : String) (mode : TravelMode) (useCache : Bool)
    (api : ApiOutcome)
    (hmiss : ¬ (useCache = true ∧
      (cacheLookup st.cache (getCacheKey origin destination mode.value)).isSome
        = true))
    (hfail : apiFails api) :
    getTravelTime st origin destination mode useCache api = (none, st) := by
  unfold getTravelTime
  simp only [if_neg hmiss]
  cases api with
  | raises => rfl
  | response top elem secs =>
    simp only [apiFails] at hfail
    by_cases ht : top = "OK"
    · by_cases he : elem = "OK"
      · rcases hfail with h | h <;> contradiction
      · simp [ht, he]
    · simp [ht]

/-- Witness for C4: on an empty cache with a raising API call,
`get_travel_time` returns `none` and the state is unchanged. -/
theorem get_travel_time_failure_absent_witness :
    getTravelTime ⟨[], []⟩ "123 Main St" "City Hall" TravelMode.transit true
      ApiOutcome.raises = (none, ⟨[], []⟩) :=
  get_travel_time_failure_absent ⟨[], []⟩ "123 Main St" "City Hall"
    TravelMode.transit true ApiOutcome.raises (by decide) (by decide)

/-- **C5.** The cache key is `mode|lowercased-trimmed-origin|lowercased-trimmed-destination`,
so calls whose origins and destinations differ only in letter case and
leading/trailing whitespace compute the same key, resolve to the same cache
entry, and indeed behave identically; in particular
`get_travel_time("123 Main St ", "City Hall", TRANSIT)` and
`get_travel_time("123 main st", "city hall", TRANSIT)`. -/
theorem cache_key_normalization :
    (∀ o1 o2 d1 d2 m : String, pyNormalize o1 = pyNormalize o2 →
      pyNormalize d1 = pyNormalize d2 →
      getCacheKey o1 d1 m = getCacheKey o2 d2 m) ∧
    getCacheKey "123 Main St " "City Hall" "transit" =
      getCacheKey "123 main st" "city hall" "transit" ∧
    (∀ (c : Cache),
      cacheLookup c (getCacheKey "123 Main St " "City Hall" "transit") =
      cacheLookup c (getCacheKey "123 main st" "city hall" "transit")) ∧
    (∀ (st : CalcState) (useCache : Bool) (api : ApiOutcome),
      getTravelTime st "123 Main St " "City Hall" TravelMode.transit useCache api =
      getTravelTime st "123 main st" "city hall" TravelMode.transit useCache api) := by
  have hkey : getCacheKey "123 Main St " "City Hall" "transit" =
      getCacheKey "123 main st" "city hall" "transit" := by decide
  refine ⟨?_, hkey, fun c => by rw [hkey], fun st u api => ?_⟩
  · intro o1 o2 d1 d2 m h1 h2
    unfold getCacheKey
    rw [h1, h2]
  · have hkey2 : getCacheKey "123 Main St " "City Hall" TravelMode.transit.value =
        getCacheKey "123 main st" "city hall" TravelMode.transit.value := by decide
    simp only [getTravelTime, hkey2]

/-- Witness for C5: two concrete origin/destination pairs differing only in
case and surrounding whitespace produce the identical cache key. -/
theorem cache_key_normalization_witness :
    getCacheKey "  456 OAK AVE" "Town Hall " "driving" =
      getCacheKey "456 oak ave " " town hall" "driving" :=
  cache_key_normalization.1 "  456 OAK AVE" "456 oak ave " "Town Hall "
    " town hall" "driving" (by decide) (by decide)

/-- **C6.** State invariant of `get_travel_time` (the only cache-mutating
operation of `DistanceCalculator`): no cache key is ever deleted; either the
state is returned untouched, or — exactly when the API response was fully
successful (`OK`/`OK`) — the single computed key is inserted/overwritten
with the fully-resolved duration, every other key's binding is unchanged,
and the entire updated mapping is immediately persisted to disk. -/
theorem get_travel_time_cache_invariant (st : CalcState)
    (origin destination : String) (mode : TravelMode) (useCache : Bool)
    (api : ApiOutcome) :
    (∀ k, (cacheLookup st.cache k).isSome = true →
      (cacheLookup (getTravelTime st origin destination mode useCache api).2.cache
        k).isSome = true) ∧
    ((getTravelTime st origin destination mode useCache api).2 = st ∨
      ∃ secs, api = ApiOutcome.response "OK" "OK" secs ∧
        ¬ (useCache = true ∧
          (cacheLookup st.cache
            (getCacheKey origin destination mode.value)).isSome = true) ∧
        (getTravelTime st origin destination mode useCache api).1 =
          some ⟨pyRoundDiv60 secs, mode.value⟩ ∧
        (getTravelTime st origin destination mode useCache api).2.cache =
          dictSet st.cache (getCacheKey origin destination mode.value)
            ⟨pyRoundDiv60 secs, mode.value⟩ ∧
        (getTravelTime st origin destination mode useCache api).2.disk =
          (getTravelTime st origin destination mode useCache api).2.cache ∧
        cacheLookup (getTravelTime st origin destination mode useCache api).2.cache
            (getCacheKey origin destination mode.value) =
          some ⟨pyRoundDiv60 secs, mode.value⟩ ∧
        ∀ k, k ≠ getCacheKey origin destination mode.value →
          cacheLookup (getTravelTime st origin destination mode useCache api).2.cache
            k = cacheLookup st.cache k) := by
  by_cases hhit : useCache = true ∧
      (cacheLookup st.cache (getCacheKey origin destination mode.value)).isSome = true
  · have heq : getTravelTime st origin destination mode useCache api =
        (cacheLookup st.cache (getCacheKey origin destination mode.value), st) := by
      simp [getTravelTime, hhit]
    rw [heq]
    exact ⟨fun k h => h, Or.inl rfl⟩
  · cases api with
    | raises =>
      have heq : getTravelTime st origin destination mode useCache
          ApiOutcome.raises = (none, st) := by
        simp [getTravelTime, hhit]
      rw [heq]
      exact ⟨fun k h => h, Or.inl rfl⟩
    | response top elem secs =>
      by_cases ht : top = "OK"
      · by_cases he : elem = "OK"
        · subst ht; subst he
          have heq : getTravelTime st origin destination mode useCache
              (ApiOutcome.response "OK" "OK" secs) =
              (some ⟨pyRoundDiv60 secs, mode.value⟩,
                ⟨dictSet st.cache (getCacheKey origin destination mode.value)
                    ⟨pyRoundDiv60 secs, mode.value⟩,
                  dictSet st.cache (getCacheKey origin destination mode.value)
                    ⟨pyRoundDiv60 secs, mode.value⟩⟩) := by
            simp [getTravelTime, hhit]
          constructor
          · intro k h
            simp only [heq]
            rw [cacheLookup_dictSet]
            split
            · simp
            · exact h
          · refine Or.inr ⟨secs, rfl, hhit, by simp [heq], by simp [heq],
              by simp [heq], ?_, ?_⟩
            · simp only [heq]
              rw [cacheLookup_dictSet, if_pos rfl]
            · intro k hk
              simp only [heq]
              rw [cacheLookup_dictSet, if_neg (fun h => hk h.symm)]
        · have heq : getTravelTime st origin destination mode useCache
              (ApiOutcome.response top elem secs) = (none, st) := by
            simp [getTravelTime, hhit, he]
          rw [heq]
          exact ⟨fun k h => h, Or.inl rfl⟩
      · have heq : getTravelTime st origin destination mode useCache
            (ApiOutcome.response top elem secs) = (none, st) := by
          simp [getTravelTime, hhit, ht]
        rw [heq]
        exact ⟨fun k h => h, Or.inl rfl⟩

/-- Witness for C6: a fully successful lookup on a one-entry cache preserves
the existing key and reports the successful-write branch of the invariant. -/
theorem get_travel_time_cache_invariant_witness :
    (cacheLookup
      (getTravelTime ⟨[("transit|a|b", ⟨7, "transit"⟩)], []⟩ "c" "d"
        TravelMode.transit true (ApiOutcome.response "OK" "OK" 600)).2.cache
      "transit|a|b").isSome = true :=
  (get_travel_time_cache_invariant ⟨[("transit|a|b", ⟨7, "transit"⟩)], []⟩
    "c" "d" TravelMode.transit true (ApiOutcome.response "OK" "OK" 600)).1
    "transit|a|b" (by decide)

/-- **C10.** With `use_cache = false` the cache is never read — the returned
value is independent of the cache contents — but a fully successful API
response is still written through: the computed key is bound to the fresh
result (overwriting any existing entry for that key) and the whole mapping
is persisted to disk. -/
theorem get_travel_time_use_cache_false (origin destination : String)
    (mode : TravelMode) (api : ApiOutcome) :
    (∀ st1 st2 : CalcState,
      (getTravelTime st1 origin destination mode false api).1 =
      (getTravelTime st2 origin destination mode false api).1) ∧
    (∀ (st : CalcState) (secs : Nat), api = ApiOutcome.response "OK" "OK" secs →
      (getTravelTime st origin destination mode false api).1 =
        some ⟨pyRoundDiv60 secs, mode.value⟩ ∧
      (getTravelTime st origin destination mode false api).2.cache =
        dictSet st.cache (getCacheKey origin destination mode.value)
          ⟨pyRoundDiv60 secs, mode.value⟩ ∧
      cacheLookup (getTravelTime st origin destination mode false api).2.cache
          (getCacheKey origin destination mode.value) =
        some ⟨pyRoundDiv60 secs, mode.value⟩ ∧
      (getTravelTime st origin destination mode false api).2.disk =
        (getTravelTime st origin destination mode false api).2.cache) := by
  constructor
  · intro st1 st2
    unfold getTravelTime
    simp only [Bool.false_eq_true, false_and, if_false]
    cases api with
    | raises => rfl
    | response top elem secs =>
      by_cases ht : top = "OK"
      · by_cases he : elem = "OK" <;> simp [ht, he]
      · simp [ht]
  · intro st secs hapi
    subst hapi
    have heq : getTravelTime st origin destination mode false
        (ApiOutcome.response "OK" "OK" secs) =
        (some ⟨pyRoundDiv60 secs, mode.value⟩,
          ⟨dictSet st.cache (getCacheKey origin destination mode.value)
              ⟨pyRoundDiv60 secs, mode.value⟩,
            dictSet st.cache (getCacheKey origin destination mode.value)
              ⟨pyRoundDiv60 secs, mode.value⟩⟩) := by
      simp [getTravelTime]
    refine ⟨by simp [heq], by simp [heq], ?_, by simp [heq]⟩
    simp only [heq]
    rw [cacheLookup_dictSet, if_pos rfl]

/-- Witness for C10: with `use_cache = false` and a stale entry already
cached for the key, a fully successful response overwrites that entry. -/
theorem get_travel_time_use_cache_false_witness :
    cacheLookup
      (getTravelTime ⟨[(getCacheKey "a" "b" "transit", ⟨99, "transit"⟩)], []⟩
        "a" "b" TravelMode.transit false (ApiOutcome.response "OK" "OK" 600)).2.cache
      (getCacheKey "a" "b" TravelMode.transit.value) =
      some ⟨pyRoundDiv60 600, TravelMode.transit.value⟩ :=
  ((get_travel_time_use_cache_false "a" "b" TravelMode.transit
      (ApiOutcome.response "OK" "OK" 600)).2
    ⟨[(getCacheKey "a" "b" "transit", ⟨99, "transit"⟩)], []⟩ 600 rfl).2.2.1

/-! ## Filter application sequencer steps (`src/engine/search_engine.py`)

The Domain site config (`src/sites/domain.py`) has property-type checkbox
selectors for the keys `all, house, apartment, townhouse, land, retirement`
(dict insertion order), bedroom/bathroom "N+" selectors for counts 1–5, and
an unconditional `bedrooms_exact` selector.  Checkbox clicks toggle the
checkbox.  We model the modal's property-type checkbox state explicitly and
record the clicks each step issues. -/

inductive PType : Type where
  | all | house | apartment | townhouse | land | retirement
  deriving DecidableEq, Repr

/-- The dict key of each property-type checkbox in
`selectors["property_types"]`. -/
def ptypeName : PType → String
  | .all => "all"
  | .house => "house"
  | .apartment => "apartment"
  | .townhouse => "townhouse"
  | .land => "land"
  | .retirement => "retirement"

/-- `get_property_type_selector` succeeds exactly on the dict keys. -/
def parsePType : String → Option PType
  | "all" => some .all
  | "house" => some .house
  | "apartment" => some .apartment
  | "townhouse" => some .townhouse
  | "land" => some .land
  | "retirement" => some .retirement
  | _ => none

/-- Checked-state of the six property-type checkboxes in the filter modal. -/
structure PTypeState where
  all : Bool
  house : Bool
  apartment : Bool
  townhouse : Bool
  land : Bool
  retirement : Bool
  deriving DecidableEq, Repr

def PTypeState.checked (st : PTypeState) : PType → Bool
  | .all => st.all
  | .house => st.house
  | .apartment => st.apartment
  | .townhouse => st.townhouse
  | .land => st.land
  | .retirement => st.retirement

/-- A click on a checkbox toggles it. -/
def PTypeState.toggle (st : PTypeState) : PType → PTypeState
  | .all => { st with all := !st.all }
  | .house => { st with house := !st.house }
  | .apartment => { st with apartment := !st.apartment }
  | .townhouse => { st with townhouse := !st.townhouse }
  | .land => { st with land := !st.land }
  | .retirement => { st with retirement := !st.retirement }

/-- The non-"all" property types in the dict's iteration order
(`for ptype, selector in all_types.items()` skips `"all"`). -/
def nonAllPTypes : List PType :=
  [PType.house, PType.apartment, PType.townhouse, PType.land, PType.retirement]

/-- `_apply_property_type_filter`: no-op when no type (or a falsy/"all" type)
is requested; otherwise uncheck the "All" toggle if currently checked, then
uncheck every currently-checked non-target type in dict order, then check
the requested type if it is not already checked.  Returns the new checkbox
state and the list of checkboxes clicked, in order. -/
def applyPropertyTypeFilter (propertyType : Option String) (st : PTypeState) :
    PTypeState × List PType :=
  match propertyType with
  | none => (st, [])
  | some t =>
    if t = "" ∨ t = "all" then (st, [])
    else
      let acc1 : PTypeState × List PType :=
        if st.all then (st.toggle PType.all, [PType.all]) else (st, [])
      let acc2 := nonAllPTypes.foldl
        (fun acc p =>
          if acc.1.checked p = true ∧ ptypeName p ≠ t then
            (acc.1.toggle p, acc.2 ++ [p])
          else acc)
        acc1
      match parsePType t with
      | none => acc2
      | some p =>
        if acc2.1.checked p = false then (acc2.1.toggle p, acc2.2 ++ [p])
        else acc2

/-- Commands the bedroom/bathroom steps can issue. -/
inductive SeqCmd : Type where
  | clickBedroom (n : Nat)
  | clickBedroomsExact
  | clickBathroom (n : Nat)
  deriving DecidableEq, Repr

/-- `_apply_bedroom_filter`: no-op when no (or a falsy `0`) bedroom count is
requested; otherwise click the "N+" selector when the site config has one
(counts 1–5 for Domain) and then always click the `bedrooms_exact`
checkbox.  The step never reads the current UI state. -/
def applyBedroomFilter (bedrooms : Option Nat) : List SeqCmd :=
  match bedrooms with
  | none => []
  | some n =>
    if n = 0 then []
    else
      (if 1 ≤ n ∧ n ≤ 5 then [SeqCmd.clickBedroom n] else []) ++
        [SeqCmd.clickBedroomsExact]

/-- `_apply_bathroom_filter`: no-op when no (or a falsy `0`) bathroom count
is requested; otherwise click the "N+" selector when the site config has
one.  The step never reads the current UI state. -/
def applyBathroomFilter (bathrooms : Option Nat) : List SeqCmd :=
  match bathrooms with
  | none => []
  | some n =>
    if n = 0 then []
    else if 1 ≤ n ∧ n ≤ 5 then [SeqCmd.clickBathroom n] else []

/-- The modal state with exactly one property type checked. -/
def onlyChecked : PType → PTypeState
  | .all => ⟨true, false, false, false, false, false⟩
  | .house => ⟨false, true, false, false, false, false⟩
  | .apartment => ⟨false, false, true, false, false, false⟩
  | .townhouse => ⟨false, false, false, true, false, false⟩
  | .land => ⟨false, false, false, false, true, false⟩
  | .retirement => ⟨false, false, false, false, false, true⟩

/-- **C7.** Property-type scenario: starting from the state where the "All"
toggle is checked and every concrete type (including "apartment") is
unchecked, `_apply_property_type_filter` with requested type `"apartment"`
yields exactly: "All" unchecked, house/townhouse/land/retirement still
unchecked, apartment checked — and the commands issued are precisely the
"All"-clearing click followed by the apartment-activating click. -/
theorem apply_property_type_filter_scenario :
    applyPropertyTypeFilter (some "apartment")
        ⟨true, false, false, false, false, false⟩ =
      (⟨false, false, true, false, false, false⟩,
        [PType.all, PType.apartment]) := by
  decide

/-- **C8 counterexample.** The claim "every step only issues UI commands
when the control is not already in the desired state" is false: the bedroom
step never reads the UI state at all (its command list is a function of the
requested criteria only), so with 3 bedrooms requested it issues its two
clicks even when the "3+" control is already selected. -/
theorem bedroom_filter_unguarded :
    applyBedroomFilter (some 3) =
      [SeqCmd.clickBedroom 3, SeqCmd.clickBedroomsExact] ∧
    applyBedroomFilter (some 3) ≠ [] ∧
    applyBathroomFilter (some 2) = [SeqCmd.clickBathroom 2] := by
  decide

/-- **C8 (amended).** Only the property-type step is guarded by current-UI
checks: on a state that already matches the requested type exactly it issues
no commands.  The bedroom and bathroom steps never read UI state, so their
commands are a function of the requested criteria alone: with no count (or
a falsy `0`) requested they issue nothing; with a supported count (1–5)
requested they issue their clicks unconditionally, regardless of UI state;
and with an unsupported nonzero count the site config yields no "N+"
selector, so the bathroom step issues nothing while the bedroom step still
unconditionally clicks the `bedrooms_exact` checkbox. -/
theorem filter_step_guards :
    (∀ t : PType, t ≠ PType.all →
      applyPropertyTypeFilter (some (ptypeName t)) (onlyChecked t) =
        (onlyChecked t, [])) ∧
    applyBedroomFilter none = [] ∧
    applyBathroomFilter none = [] ∧
    applyBedroomFilter (some 0) = [] ∧
    applyBathroomFilter (some 0) = [] ∧
    (∀ n : Nat, 1 ≤ n → n ≤ 5 →
      applyBedroomFilter (some n) =
        [SeqCmd.clickBedroom n, SeqCmd.clickBedroomsExact] ∧
      applyBathroomFilter (some n) = [SeqCmd.clickBathroom n]) ∧
    (∀ n : Nat, 5 < n →
      applyBedroomFilter (some n) = [SeqCmd.clickBedroomsExact] ∧
      applyBathroomFilter (some n) = []) := by
  refine ⟨?_, rfl, rfl, rfl, rfl, ?_, ?_⟩
  · intro t ht
    cases t
    · exact absurd rfl ht
    all_goals decide
  · intro n h1 h5
    interval_cases n <;> exact ⟨rfl, rfl⟩
  · intro n h
    have h0 : ¬ n = 0 := by omega
    have h5 : ¬ (1 ≤ n ∧ n ≤ 5) := by omega
    exact ⟨by simp [applyBedroomFilter, h0, h5],
      by simp [applyBathroomFilter, h0, h5]⟩

/-- Witness for the amended C8: the property-type step on a state already
matching "apartment" issues no commands; a requested count of 3 bedrooms
issues exactly its two state-independent clicks; and an unsupported count
of 6 bathrooms issues nothing while 6 bedrooms still clicks only the
exact-count checkbox. -/
theorem filter_step_guards_witness :
    applyPropertyTypeFilter (some (ptypeName PType.apartment))
        (onlyChecked PType.apartment) = (onlyChecked PType.apartment, []) ∧
    applyBedroomFilter (some 3) =
      [SeqCmd.clickBedroom 3, SeqCmd.clickBedroomsExact] ∧
    applyBedroomFilter (some 6) = [SeqCmd.clickBedroomsExact] ∧
    applyBathroomFilter (some 6) = [] :=
  ⟨filter_step_guards.1 PType.apartment (by decide),
    (filter_step_guards.2.2.2.2.2.1 3 (by decide) (by decide)).1,
    (filter_step_guards.2.2.2.2.2.2 6 (by decide)).1,
    (filter_step_guards.2.2.2.2.2.2 6 (by decide)).2⟩

/-! ## Distance enrichment (`src/enrichment/distance_enricher.py`)

`enrich_collection` walks the listings; with `skip_cached` it skips a
listing exactly when `listing.distance_rnsh_mins is not None`, otherwise it
calls `enrich_listing` on it (modelled abstractly, as it wraps the external
distance API).  The model returns the processed listings together with the
`enriched` and `skipped` counters. -/

structure Listing where
  listing_id : String
  full_address : String
  distance_rnsh_mins : Option Nat
  distance_qvb_mins : Option Nat
  distance_bella_vista_mins : Option Nat
  deriving DecidableEq, Repr

/-- The per-listing loop of `enrich_collection` (before the optional
travel-time filtering): skip when `skip_cached` and `distance_rnsh_mins` is
present, else enrich.  Returns (listings after the loop, enriched count,
skipped count). -/
def enrichCollectionProcess (enrichFn : Listing → Listing) (skipCached : Bool) :
    List Listing → List Listing × Nat × Nat
  | [] => ([], 0, 0)
  | l :: rest =>
    if skipCached = true ∧ l.distance_rnsh_mins.isSome = true then
      let r := enrichCollectionProcess enrichFn skipCached rest
      (l :: r.1, r.2.1, r.2.2 + 1)
    else
      let r := enrichCollectionProcess enrichFn skipCached rest
      (enrichFn l :: r.1, r.2.1 + 1, r.2.2)

/-- **C9.** With `skip_cached = true` a listing is skipped if and only if
its `distance_rnsh_mins` field is present: each listing is left untouched
when `distance_rnsh_mins` is present and enriched otherwise (regardless of
the other distance fields), the skipped counter counts exactly the listings
with `distance_rnsh_mins` present, and in particular a listing whose other
distance fields are populated but whose `distance_rnsh_mins` is absent is
re-enriched, while a listing with only `distance_rnsh_mins` populated is
skipped entirely. -/
theorem enrich_collection_skip_iff (enrichFn : Listing → Listing)
    (listings : List Listing) :
    (enrichCollectionProcess enrichFn true listings).1 =
      listings.map (fun l =>
        if l.distance_rnsh_mins.isSome = true then l else enrichFn l) ∧
    (enrichCollectionProcess enrichFn true listings).2.2 =
      (listings.filter (fun l => l.distance_rnsh_mins.isSome)).length ∧
    (enrichCollectionProcess enrichFn true listings).2.1 =
      (listings.filter (fun l => !l.distance_rnsh_mins.isSome)).length ∧
    enrichCollectionProcess enrichFn true
        [⟨"a", "1 A St", some 10, none, none⟩] =
      ([⟨"a", "1 A St", some 10, none, none⟩], 0, 1) ∧
    enrichCollectionProcess enrichFn true
        [⟨"b", "2 B St", none, some 12, some 20⟩] =
      ([enrichFn ⟨"b", "2 B St", none, some 12, some 20⟩], 1, 0) := by
  refine ⟨?_, ?_, ?_, by simp [enrichCollectionProcess], by simp [enrichCollectionProcess]⟩
  all_goals
    induction listings with
    | nil => simp [enrichCollectionProcess]
    | cons l rest ih =>
      cases hm : l.distance_rnsh_mins with
      | some d => simp [enrichCollectionProcess, hm, ih]
      | none => simp [enrichCollectionProcess, hm, ih]

end HouseSearch
